import Mathlib

/-!
Shallow embedding of the watering decision engine of the Irrigator backend
(src/backend/app.py): device profiles, the per-device watering state tracker,
the decision function `check_automation_rules` with its helper
`can_water_device`, the deferred close-timer callback, and a small-step
trace semantics over sensor-reading evaluations, timer firings and manual
valve commands.

Times are epoch seconds modelled as `Int`; moisture percentages, thresholds
and the daily-volume computation are exact rationals (the Python floats are
exact at every concrete value used here).

A module-level name collision shapes the embedding: app.py line 5 does
`import datetime` but line 12 does `from datetime import datetime, timedelta`,
rebinding the name `datetime` to the class (lines 1857 and 1862 use the
class-style `datetime.now()` against that binding). The expression
`datetime.datetime.fromtimestamp(...)` at lines 241-242 therefore raises
AttributeError on every call to `can_water_device` — the class has no
`datetime` attribute — and the blanket `except Exception` at lines 584-585
of `check_automation_rules` swallows it. Fallible steps are modelled with
`Except`: `can_water_device` returns `Except.error ()` on the date lines,
and the automation-rule database read is an `Except` parameter whose failure
lands in the same handler.
-/

namespace Irrigator

/-- Default watering control constants from app.py (seconds / count). -/
def DEFAULT_WICKING_WAIT_TIME : Int := 60 * 60

/-- Default valve-open duration per cycle, in seconds. -/
def DEFAULT_WATERING_DURATION : Int := 5 * 60

/-- Default cap on watering cycles per calendar day. -/
def DEFAULT_MAX_DAILY_CYCLES : Int := 4

/-- Watering profile fields used by the decision engine.
`max_watering_per_day` is in minutes of valve-open time; `none` models the
Python `None`. -/
structure Profile where
  name : String
  watering_duration : Int
  wicking_wait_time : Int
  max_daily_cycles : Int
  max_watering_per_day : Option ℚ
  deriving Repr, DecidableEq

/-- Built-in default profile returned when no profile row exists or the
profile store read fails. -/
def defaultProfile : Profile :=
  { name := "Default"
    watering_duration := DEFAULT_WATERING_DURATION
    wicking_wait_time := DEFAULT_WICKING_WAIT_TIME
    max_daily_cycles := DEFAULT_MAX_DAILY_CYCLES
    max_watering_per_day := none }

/-- A stored profile row: the profile plus the selection metadata used by
`get_device_profile` (the is_default flag and the updated_at stamp). -/
structure ProfileRow where
  profile : Profile
  is_default : Bool
  updated_at : Int
  deriving Repr, DecidableEq

/-- Keep the later-updated of two profile rows (first one on a tie). -/
def pickRecent (best x : ProfileRow) : ProfileRow :=
  if best.updated_at < x.updated_at then x else best

/-- The row SQLite returns for ORDER BY updated_at DESC LIMIT 1: a row of
maximal `updated_at` (first such row in list order). -/
def mostRecentRow : List ProfileRow → Option ProfileRow
  | [] => none
  | r :: rs => some (rs.foldl pickRecent r)

/-- get_device_profile from app.py (lines 155-214): serve the cache if
present; otherwise query the store (an `Except` models the try/except around
the SQLite reads): prefer the row flagged is_default, else the most recently
updated row, else the built-in defaults; on a store error fall back to the
built-in defaults. This function uses no datetime and is live code. -/
def get_device_profile (cache : Option Profile) (store : Except Unit (List ProfileRow)) :
    Profile :=
  match cache with
  | some p => p
  | none =>
    match store with
    | Except.error _ => defaultProfile
    | Except.ok rows =>
      match rows.find? (fun r => r.is_default) with
      | some r => r.profile
      | none =>
        match mostRecentRow rows with
        | some r => r.profile
        | none => defaultProfile

/-- Per-device watering state: the entries of the module-level dictionaries
last_watering_times, daily_cycles, last_cycle_reset and manual_override for
one device. -/
structure DeviceState where
  last_watering_time : Int
  daily_cycles : Nat
  last_cycle_reset : Int
  manual_override : Bool
  deriving Repr, DecidableEq

/-- Calendar-day bucketing of an epoch timestamp (days since the epoch):
the value lines 241-242 of app.py were written to compute. -/
def dateOf (t : Int) : Int := Int.fdiv t 86400

/-- The expression `datetime.datetime.fromtimestamp(t).date()` as app.py
lines 241-242 actually execute it: line 5 imports the `datetime` module but
line 12 rebinds the name `datetime` to the datetime class, which has no
`datetime` attribute, so the lookup raises AttributeError on every
evaluation — modelled as `Except.error ()`. -/
def fromtimestamp_date (_t : Int) : Except Unit Int := Except.error ()

/-- water_used_today in can_water_device: daily cycles times the watering
duration converted to minutes. -/
def water_used_today (profile : Profile) (cycles : Nat) : ℚ :=
  (cycles : ℚ) * ((profile.watering_duration : ℚ) / 60)

/-- The reservoir guard of can_water_device (lines 256-262): Python
`profile[max_watering_per_day] and water_used_today >= profile[max_watering_per_day]`.
A `None` or zero cap is falsy, so the guard is skipped. -/
def capBlocked (profile : Profile) (used : ℚ) : Bool :=
  match profile.max_watering_per_day with
  | none => false
  | some cap => decide (cap ≠ 0) && decide (cap ≤ used)

/-- can_water_device from app.py (lines 222-265), on an already-initialized
device state. The body follows the source: compute the two calendar dates
(lines 241-242, which raise AttributeError — see `fromtimestamp_date`),
perform the midnight reset when the dates differ (lines 244-247), then the
reservoir guard and the wait-time/cycle-cap verdict. Because the date lines
raise, every call returns `Except.error ()` and the reset and the guards are
dead code. The (possibly reset) state is returned alongside the verdict,
since the reset mutates the tracker. -/
def can_water_device (profile : Profile) (s : DeviceState) (now : Int) :
    Except Unit (Bool × DeviceState) := do
  let current_date ← fromtimestamp_date now
  let last_reset_date ← fromtimestamp_date s.last_cycle_reset
  let s2 :=
    if current_date ≠ last_reset_date then
      { s with daily_cycles := 0, manual_override := false, last_cycle_reset := now }
    else s
  if capBlocked profile (water_used_today profile s2.daily_cycles) then
    return (false, s2)
  else
    return (decide (profile.wicking_wait_time ≤ now - s2.last_watering_time) &&
        decide ((s2.daily_cycles : Int) < profile.max_daily_cycles), s2)

/-- update_watering_state from app.py (lines 267-273): stamp the watering
time with the current time and increment the daily cycle counter. Only the
close-timer callback calls it. -/
def update_watering_state (s : DeviceState) (now : Int) : DeviceState :=
  { s with last_watering_time := now, daily_cycles := s.daily_cycles + 1 }

/-- The state receive_sensor_data (lines 287-292) creates for a previously
unknown device: watering allowed DEFAULT_WICKING_WAIT_TIME seconds ago, zero
cycles, reset stamped now, no override (the dictionaries treat an absent key
as false). These lines use no datetime and run normally. -/
def initState (now : Int) : DeviceState :=
  { last_watering_time := now - DEFAULT_WICKING_WAIT_TIME
    daily_cycles := 0
    last_cycle_reset := now
    manual_override := false }

/-- An automation rule row: enabled flag and the two thresholds. -/
structure Rule where
  enabled : Bool
  low_threshold : ℚ
  high_threshold : ℚ
  deriving Repr, DecidableEq

/-- A valve command as issued by control_valve_internal: the commanded state
(true = open) and whether it came from the manual entry point. -/
structure ValveCommand where
  state : Bool
  is_manual : Bool
  deriving Repr, DecidableEq

/-- An automated valve command (control_valve_internal with is_manual=False). -/
def autoCmd (b : Bool) : ValveCommand := { state := b, is_manual := false }

/-- Whether a command is an automated OpenValve. -/
def isAutoOpen (c : ValveCommand) : Bool := c.state && !c.is_manual

/-- Result of one run of check_automation_rules: the valve commands emitted
immediately, the updated tracker state, and the fire time of a newly armed
close-timer when a watering cycle was started. -/
structure EvalResult where
  cmds : List ValveCommand
  state : DeviceState
  armed : Option Int
  deriving Repr, DecidableEq

/-- check_automation_rules from app.py (lines 516-585), for one device. The
whole body sits in a try/except (518, 584-585). Return immediately under a
manual override (525-528); the rule database read (530-538) is an `Except`
whose failure lands in the handler, yielding a no-op; do nothing without an
enabled rule; on `moisture <= low_threshold` consult can_water_device — its
AttributeError propagates to the handler, so the branch yields a no-op with
the tracker unchanged, and the open/arm code (which would open the valve and
arm a close-timer for watering_duration seconds) is dead; on
`moisture >= high_threshold` close the valve unconditionally; otherwise
no-op. -/
def check_automation_rules (profile : Profile) (rule : Except Unit (Option Rule))
    (moisture : ℚ) (s : DeviceState) (now : Int) : EvalResult :=
  if s.manual_override then { cmds := [], state := s, armed := none }
  else
    match rule with
    | Except.error _ => { cmds := [], state := s, armed := none }
    | Except.ok none => { cmds := [], state := s, armed := none }
    | Except.ok (some r) =>
      if r.enabled then
        if moisture ≤ r.low_threshold then
          match can_water_device profile s now with
          | Except.error _ => { cmds := [], state := s, armed := none }
          | Except.ok cw =>
            if cw.1 then
              { cmds := [autoCmd true], state := cw.2
                armed := some (now + profile.watering_duration) }
            else { cmds := [], state := cw.2, armed := none }
        else if r.high_threshold ≤ moisture then
          { cmds := [autoCmd false], state := s, armed := none }
        else { cmds := [], state := s, armed := none }
      else { cmds := [], state := s, armed := none }

/-- The body of turn_off_valve (lines 558-568) after its sleep: emit an
automated close and run update_watering_state at the fire time. -/
def fireTimer (s : DeviceState) (fireTime : Int) : List ValveCommand × DeviceState :=
  ([autoCmd false], update_watering_state s fireTime)

/-- Whole-device configuration: the tracker state, the fire times of armed
close-timers not yet fired (in arming order), and the log of every valve
command issued so far. -/
structure Config where
  dev : DeviceState
  pending : List Int
  log : List ValveCommand
  deriving Repr, DecidableEq

/-- Events that touch one device's state: a sensor-reading evaluation
(timestamp, moisture, the outcome of the automation-rule read), the firing
of the oldest armed close-timer, and a manual valve command. -/
inductive Event where
  | reading (now : Int) (moisture : ℚ) (rule : Except Unit (Option Rule))
  | fire
  | manualValve (now : Int) (state : Bool)

/-- Small-step semantics: a reading runs check_automation_rules and may arm
a timer; a fire pops the oldest armed timer and runs the close callback; a
manual command logs a manual valve command and, as in control_valve_internal
(lines 587-605), touches no tracker state. -/
def step (profile : Profile) (c : Config) : Event → Config
  | Event.reading now m rule =>
    let r := check_automation_rules profile rule m c.dev now
    { dev := r.state, pending := c.pending ++ r.armed.toList, log := c.log ++ r.cmds }
  | Event.fire =>
    match c.pending with
    | [] => c
    | ft :: rest =>
      let fr := fireTimer c.dev ft
      { dev := fr.2, pending := rest, log := c.log ++ fr.1 }
  | Event.manualValve _ b =>
    { c with log := c.log ++ [{ state := b, is_manual := true }] }

/-- Run a sequence of events. -/
def run (profile : Profile) (c : Config) (es : List Event) : Config :=
  es.foldl (step profile) c

/-- Configuration of a device first seen at time t0: fresh tracker state, no
armed timer, empty command log. -/
def initConfig (t0 : Int) : Config :=
  { dev := initState t0, pending := [], log := [] }

/-- A rule with the default thresholds app.py inserts (low 30, high 70). -/
def ruleDefault : Rule := { enabled := true, low_threshold := 30, high_threshold := 70 }

/-- A profile allowing a single watering cycle per day. -/
def profileOneCycle : Profile :=
  { name := "P1"
    watering_duration := 300
    wicking_wait_time := 3600
    max_daily_cycles := 1
    max_watering_per_day := none }

/-- Two low readings one second apart followed by two timer-fire attempts. -/
def overlapTrace : List Event :=
  [Event.reading 0 10 (Except.ok (some ruleDefault)),
   Event.reading 1 10 (Except.ok (some ruleDefault)),
   Event.fire, Event.fire]

/-- A device state with three counted cycles whose last reset was at epoch 0. -/
def staleState : DeviceState :=
  { last_watering_time := 0, daily_cycles := 3, last_cycle_reset := 0, manual_override := false }

/-- A device state with the manual override flag set. -/
def ovState : DeviceState :=
  { last_watering_time := 0, daily_cycles := 0, last_cycle_reset := 0, manual_override := true }

/-- A profile whose wicking wait exceeds the default one. -/
def slowProfile : Profile :=
  { name := "Slow"
    watering_duration := 300
    wicking_wait_time := 7200
    max_daily_cycles := 4
    max_watering_per_day := none }

/-- The default profile with a daily volume cap of zero minutes. -/
def cap0Profile : Profile := { defaultProfile with max_watering_per_day := some 0 }

/-- A stored profile row flagged as the default profile. -/
def rowA : ProfileRow := { profile := slowProfile, is_default := true, updated_at := 5 }

/-- A stored profile row that is not the default and was updated latest. -/
def rowB : ProfileRow := { profile := profileOneCycle, is_default := false, updated_at := 9 }

/-- Every call to can_water_device aborts at the first date line: the
shadowed datetime name makes line 241 of app.py raise before anything else
in the body can run. -/
theorem can_water_error (profile : Profile) (s : DeviceState) (now : Int) :
    can_water_device profile s now = Except.error () := rfl

/-- Every evaluation of check_automation_rules leaves the tracker state
unchanged and arms no timer: the only branch that could change the state or
arm a timer consults can_water_device, which always errors into the
swallowing handler. -/
theorem check_state_eq (profile : Profile) (rule : Except Unit (Option Rule)) (m : ℚ)
    (s : DeviceState) (now : Int) :
    (check_automation_rules profile rule m s now).state = s ∧
    (check_automation_rules profile rule m s now).armed = none := by
  unfold check_automation_rules
  split
  · exact ⟨rfl, rfl⟩
  · cases rule with
    | error e => exact ⟨rfl, rfl⟩
    | ok o =>
      cases o with
      | none => exact ⟨rfl, rfl⟩
      | some r =>
        dsimp only
        by_cases hen : r.enabled = true
        · rw [if_pos hen]
          by_cases hlow : m ≤ r.low_threshold
          · rw [if_pos hlow]
            exact ⟨rfl, rfl⟩
          · rw [if_neg hlow]
            by_cases hhigh : r.high_threshold ≤ m
            · rw [if_pos hhigh]
              exact ⟨rfl, rfl⟩
            · rw [if_neg hhigh]
              exact ⟨rfl, rfl⟩
        · rw [if_neg hen]
          exact ⟨rfl, rfl⟩

/-- The commands an evaluation emits are either nothing or a single
automated close: no branch that survives the error path emits an open. -/
theorem check_cmds_cases (profile : Profile) (rule : Except Unit (Option Rule)) (m : ℚ)
    (s : DeviceState) (now : Int) :
    (check_automation_rules profile rule m s now).cmds = [] ∨
    (check_automation_rules profile rule m s now).cmds = [autoCmd false] := by
  unfold check_automation_rules
  split
  · exact Or.inl rfl
  · cases rule with
    | error e => exact Or.inl rfl
    | ok o =>
      cases o with
      | none => exact Or.inl rfl
      | some r =>
        dsimp only
        by_cases hen : r.enabled = true
        · rw [if_pos hen]
          by_cases hlow : m ≤ r.low_threshold
          · rw [if_pos hlow]
            exact Or.inl rfl
          · rw [if_neg hlow]
            by_cases hhigh : r.high_threshold ≤ m
            · rw [if_pos hhigh]
              exact Or.inr rfl
            · rw [if_neg hhigh]
              exact Or.inl rfl
        · rw [if_neg hen]
          exact Or.inl rfl

/-- One step from a configuration with no pending timer leaves the device
state untouched and arms nothing. -/
theorem step_dev_pending (profile : Profile) (c : Config) (e : Event)
    (hp : c.pending = []) :
    (step profile c e).dev = c.dev ∧ (step profile c e).pending = [] := by
  cases e with
  | reading now m rule =>
    refine ⟨(check_state_eq profile rule m c.dev now).1, ?_⟩
    show c.pending ++ (check_automation_rules profile rule m c.dev now).armed.toList = []
    rw [(check_state_eq profile rule m c.dev now).2, hp]
    rfl
  | fire =>
    have h : step profile c Event.fire = c := by
      simp only [step, hp]
    rw [h]
    exact ⟨rfl, hp⟩
  | manualValve t b =>
    exact ⟨rfl, hp⟩

/-- Along any run from a configuration with no pending timer, the device
state is frozen and no timer is ever armed. -/
theorem run_frozen (profile : Profile) (es : List Event) (c : Config)
    (hp : c.pending = []) :
    (run profile c es).dev = c.dev ∧ (run profile c es).pending = [] := by
  induction es generalizing c with
  | nil => exact ⟨rfl, hp⟩
  | cons e es ih =>
    have h := step_dev_pending profile c e hp
    have h2 := ih (step profile c e) h.2
    exact ⟨h2.1.trans h.1, h2.2⟩

/-- One step never adds an automated OpenValve to a clean log. -/
theorem step_log_auto (profile : Profile) (c : Config) (e : Event)
    (hl : c.log.filter isAutoOpen = []) :
    (step profile c e).log.filter isAutoOpen = [] := by
  cases e with
  | reading now m rule =>
    simp only [step, List.filter_append, hl, List.nil_append]
    rcases check_cmds_cases profile rule m c.dev now with h | h <;> rw [h]
    · rfl
    · rfl
  | fire =>
    cases hp : c.pending with
    | nil =>
      simp only [step, hp]
      exact hl
    | cons ft rest =>
      simp only [step, hp, fireTimer, List.filter_append, hl, List.nil_append]
      rfl
  | manualValve t b =>
    simp only [step, List.filter_append, hl, List.nil_append]
    cases b <;> rfl

/-- Along any run from a clean log, no automated OpenValve is ever logged. -/
theorem run_log_auto (profile : Profile) (es : List Event) (c : Config)
    (hl : c.log.filter isAutoOpen = []) :
    (run profile c es).log.filter isAutoOpen = [] := by
  induction es generalizing c with
  | nil => exact hl
  | cons e es ih => exact ih (step profile c e) (step_log_auto profile c e hl)

/-- The foldl selection of pickRecent never decreases the accumulator's
update stamp. -/
theorem foldl_pickRecent_le (rs : List ProfileRow) (a : ProfileRow) :
    a.updated_at ≤ (rs.foldl pickRecent a).updated_at := by
  induction rs generalizing a with
  | nil => exact le_refl _
  | cons r rs ih =>
    refine le_trans ?_ (ih (pickRecent a r))
    unfold pickRecent
    split
    · exact le_of_lt (by assumption)
    · exact le_refl _

/-- The foldl selection of pickRecent dominates every traversed row's update
stamp. -/
theorem foldl_pickRecent_mem_le (rs : List ProfileRow) (a x : ProfileRow) (hx : x ∈ rs) :
    x.updated_at ≤ (rs.foldl pickRecent a).updated_at := by
  induction rs generalizing a with
  | nil => cases hx
  | cons r rs ih =>
    rcases List.mem_cons.mp hx with h | h
    · subst h
      refine le_trans ?_ (foldl_pickRecent_le rs (pickRecent a x))
      unfold pickRecent
      split
      · exact le_refl _
      · exact le_of_not_lt (by assumption)
    · exact ih (pickRecent a r) h

/-- The row mostRecentRow selects has the maximal update stamp in the list. -/
theorem mostRecentRow_ge (rows : List ProfileRow) (r : ProfileRow)
    (h : mostRecentRow rows = some r) : ∀ x ∈ rows, x.updated_at ≤ r.updated_at := by
  cases rows with
  | nil => cases h
  | cons a rs =>
    unfold mostRecentRow at h
    rw [Option.some_inj] at h
    subst h
    intro x hx
    rcases List.mem_cons.mp hx with h | h
    · subst h
      exact foldl_pickRecent_le rs x
    · exact foldl_pickRecent_mem_le rs a x h

/-- Claim C1: for every device and every sequence of reading evaluations,
timer firings and manual commands, the tracked cycles_used_today never
exceeds a nonnegative max_daily_cycles of the active profile. It holds
degenerately: the counter is only incremented by the close-timer callback,
no timer is ever armed (the low branch always dies in the swallowed
AttributeError from the shadowed datetime name), so the counter stays 0 in
every reachable configuration — in particular also across any interleaving
with pending timers, of which there are none. -/
theorem claim_C1 (profile : Profile) (t0 : Int) (es : List Event)
    (hmax : 0 ≤ profile.max_daily_cycles) :
    ((run profile (initConfig t0) es).dev.daily_cycles : Int) ≤ profile.max_daily_cycles := by
  rw [(run_frozen profile es (initConfig t0) rfl).1]
  show ((0 : Nat) : Int) ≤ profile.max_daily_cycles
  simpa using hmax

/-- Claim C1 witness: the bound instantiated on a concrete trace of two low
readings and two fire attempts under the default profile. -/
theorem claim_C1_witness :
    ((run defaultProfile (initConfig 0) overlapTrace).dev.daily_cycles : Int) ≤
      defaultProfile.max_daily_cycles :=
  claim_C1 defaultProfile 0 overlapTrace (by decide)

/-- Claim C2 counterexample: a low reading on a later calendar day, with an
enabled rule and no override, leaves the tracker state — cycles 3, reset
date, override — completely unchanged: line 241 of app.py raises before the
reset block at 244-247 and the exception is swallowed at 584-585. -/
theorem claim_C2_cex :
    dateOf 432000 ≠ dateOf staleState.last_cycle_reset ∧
    (check_automation_rules defaultProfile (Except.ok (some ruleDefault))
        10 staleState 432000).state = staleState := by
  exact ⟨by decide, (check_state_eq defaultProfile (Except.ok (some ruleDefault))
    10 staleState 432000).1⟩

/-- Claim C2 (amended): the day-rollover reset never executes on any
evaluation: every evaluation that reaches can_water_device aborts at the
AttributeError from the shadowed datetime name before the reset block, the
exception is swallowed, and high-moisture and dead-band evaluations never
call can_water_device at all — so every evaluation, on any calendar day and
at any moisture value, leaves the tracker state unchanged. -/
theorem claim_C2 (profile : Profile) (rule : Except Unit (Option Rule)) (m : ℚ)
    (s : DeviceState) (now : Int) :
    (check_automation_rules profile rule m s now).state = s :=
  (check_state_eq profile rule m s now).1

/-- Claim C3: for every automated OpenValve, the armed close-timer fires
exactly once after watering_duration seconds, emitting one CloseValve and
one increment. The claim holds vacuously of the code: no automated OpenValve
is ever emitted and no close-timer is ever armed, because the low-moisture
branch always dies in the swallowed AttributeError before reaching the open
and the timer thread — proved as: in every reachable configuration the log
holds no automated open, no timer is pending, and the counter shows zero
completed cycles. -/
theorem claim_C3 (profile : Profile) (t0 : Int) (es : List Event) :
    (run profile (initConfig t0) es).log.filter isAutoOpen = [] ∧
    (run profile (initConfig t0) es).pending = [] ∧
    (run profile (initConfig t0) es).dev.daily_cycles = 0 := by
  refine ⟨run_log_auto profile es (initConfig t0) rfl,
    (run_frozen profile es (initConfig t0) rfl).2, ?_⟩
  rw [(run_frozen profile es (initConfig t0) rfl).1]
  rfl

/-- Claim C4: can_water_device is claimed to return true iff the wait-time,
cycle-cap and volume conditions hold; in the code it never returns a verdict
at all — every call raises AttributeError at line 241 (the name `datetime`
denotes the class after line 12), before any condition is evaluated. -/
theorem claim_C4 (profile : Profile) (s : DeviceState) (now : Int) :
    can_water_device profile s now = Except.error () ∧
    ∀ (b : Bool) (s2 : DeviceState), can_water_device profile s now ≠ Except.ok (b, s2) := by
  refine ⟨can_water_error profile s now, ?_⟩
  intro b s2 h
  rw [can_water_error profile s now] at h
  exact Except.noConfusion h

/-- Claim C4 witness: the failing call evaluated at a concrete input where
every claimed condition for watering holds. -/
theorem claim_C4_witness :
    can_water_device defaultProfile (initState 0) 0 = Except.error () :=
  (claim_C4 defaultProfile (initState 0) 0).1

/-- Claim C5 counterexample: with the manual override set, a low reading on a
later calendar day emits nothing and leaves the override set — the
day-boundary reset that is supposed to clear the override never runs, so
the suppression is not ended by the day boundary. -/
theorem claim_C5_cex :
    dateOf 86400 ≠ dateOf ovState.last_cycle_reset ∧
    (check_automation_rules defaultProfile (Except.ok (some ruleDefault))
        10 ovState 86400).state.manual_override = true ∧
    (check_automation_rules defaultProfile (Except.ok (some ruleDefault))
        10 ovState 86400).cmds = [] := by
  decide

/-- Claim C5 (amended): whenever manual_override is set, evaluating any
reading emits no valve command, arms no timer and leaves the tracker state
(including the override) completely unchanged; the suppression therefore
persists indefinitely under reading evaluations, because the code that
clears the flag sits inside can_water_device, which is reached only when
the override is already clear. -/
theorem claim_C5 (profile : Profile) (rule : Except Unit (Option Rule)) (m : ℚ)
    (s : DeviceState) (now : Int) (h : s.manual_override = true) :
    check_automation_rules profile rule m s now = { cmds := [], state := s, armed := none } := by
  unfold check_automation_rules
  rw [if_pos h]

/-- Claim C5 witness: the suppression instantiated at a concrete overridden
state and low reading. -/
theorem claim_C5_witness :
    check_automation_rules defaultProfile (Except.ok (some ruleDefault)) 10 ovState 0 =
      { cmds := [], state := ovState, armed := none } :=
  claim_C5 defaultProfile (Except.ok (some ruleDefault)) 10 ovState 0 rfl

/-- Claim C6: with an enabled rule, no active override, moisture at or above
the high threshold and strictly above the low threshold, the engine emits
exactly one automated CloseValve immediately and unconditionally — the
tracker state is untouched and no timer is consulted or armed, for every
state, so wait-time, cycle and volume constraints are irrelevant. -/
theorem claim_C6 (profile : Profile) (r : Rule) (m : ℚ) (s : DeviceState) (now : Int)
    (hov : s.manual_override = false) (hen : r.enabled = true)
    (hhigh : r.high_threshold ≤ m) (hlow : r.low_threshold < m) :
    check_automation_rules profile (Except.ok (some r)) m s now =
      { cmds := [autoCmd false], state := s, armed := none } := by
  unfold check_automation_rules
  rw [if_neg (by rw [hov]; exact Bool.false_ne_true)]
  dsimp only
  rw [if_pos hen, if_neg (not_le.mpr hlow), if_pos hhigh]

/-- Claim C6 witness: the unconditional close instantiated at moisture 80 on
a state that has three counted cycles. -/
theorem claim_C6_witness :
    check_automation_rules defaultProfile (Except.ok (some ruleDefault)) 80 staleState 0 =
      { cmds := [autoCmd false], state := staleState, armed := none } :=
  claim_C6 defaultProfile ruleDefault 80 staleState 0 rfl rfl (by decide) (by decide)

/-- Claim C7 counterexample: a freshly created device state has
last_watering_time = now - 3600 (the built-in constant), not now minus the
slow profile's wicking_wait_time of 7200, and the immediate first watering
the claim promises is not permitted: can_water_device yields no verdict at
all, aborting in the AttributeError at line 241. -/
theorem claim_C7_cex :
    can_water_device slowProfile (initState 0) 0 = Except.error () ∧
    (initState 0).last_watering_time ≠ 0 - slowProfile.wicking_wait_time :=
  ⟨can_water_error slowProfile (initState 0) 0, by decide⟩

/-- Claim C7 (amended): the first reading for an unknown device creates state
with zeroed counters and last_watering_time = now - DEFAULT_WICKING_WAIT_TIME
(the built-in 3600 s constant, not the profile's wicking_wait_time); but no
first watering is ever permitted under any profile, immediate or otherwise:
every can_water_device call raises the AttributeError from the shadowed
datetime name and is swallowed, so the low branch never opens the valve. -/
theorem claim_C7 (now : Int) :
    (initState now).last_watering_time = now - DEFAULT_WICKING_WAIT_TIME ∧
    (initState now).daily_cycles = 0 ∧
    ∀ (profile : Profile), can_water_device profile (initState now) now = Except.error () :=
  ⟨rfl, rfl, fun profile => can_water_error profile (initState now) now⟩

/-- Claim C8 counterexample: on a rule-store read failure the engine does
not fall back to built-in default rule values — a moisture-80 reading emits
nothing, while under the built-in default rule (enabled, low 30, high 70)
the same reading emits a CloseValve: automation is skipped wholesale. -/
theorem claim_C8_cex :
    (check_automation_rules defaultProfile (Except.error ()) 80 staleState 0).cmds = [] ∧
    (check_automation_rules defaultProfile (Except.ok (some ruleDefault))
        80 staleState 0).cmds = [autoCmd false] := by
  decide

/-- Claim C8 (amended): profile resolution for a cache miss prefers the row
flagged is_default, otherwise a row of maximal updated_at, otherwise the
built-in defaults, and a profile-store read failure also yields the built-in
default profile; but a rule-store read failure does not fall back to default
rule values — the exception lands in the blanket handler and the evaluation
is skipped entirely, emitting nothing and leaving the tracker unchanged
(reading ingestion itself still succeeds). -/
theorem claim_C8 :
    (∀ e : Unit, get_device_profile none (Except.error e) = defaultProfile) ∧
    (∀ (rows : List ProfileRow) (r : ProfileRow),
        rows.find? (fun p => p.is_default) = some r →
        get_device_profile none (Except.ok rows) = r.profile) ∧
    (∀ (rows : List ProfileRow) (r : ProfileRow),
        rows.find? (fun p => p.is_default) = none →
        mostRecentRow rows = some r →
        get_device_profile none (Except.ok rows) = r.profile ∧
        ∀ x ∈ rows, x.updated_at ≤ r.updated_at) ∧
    get_device_profile none (Except.ok []) = defaultProfile ∧
    (∀ (profile : Profile) (m : ℚ) (s : DeviceState) (now : Int),
        check_automation_rules profile (Except.error ()) m s now =
          { cmds := [], state := s, armed := none }) := by
  refine ⟨fun e => rfl, ?_, ?_, rfl, ?_⟩
  · intro rows r h
    unfold get_device_profile
    dsimp only
    rw [h]
  · intro rows r h1 h2
    constructor
    · unfold get_device_profile
      dsimp only
      rw [h1, h2]
    · exact mostRecentRow_ge rows r h2
  · intro profile m s now
    unfold check_automation_rules
    split
    · rfl
    · rfl

/-- Claim C8 witness: resolution on a concrete store with a default-flagged
row, and on a store whose only row is not flagged default. -/
theorem claim_C8_witness :
    get_device_profile none (Except.ok [rowB, rowA]) = slowProfile ∧
    get_device_profile none (Except.ok [rowB]) = profileOneCycle :=
  ⟨claim_C8.2.1 [rowB, rowA] rowA (by decide),
   (claim_C8.2.2.1 [rowB] rowB (by decide) (by decide)).1⟩

/-- Claim C9: starting from the state created for a device's first reading,
no sequence of reading evaluations, timer firings and manual valve commands
ever sets manual_override_active — it is false in every reachable
configuration, and a manual valve command leaves the whole tracker state
untouched — so the automation-suppression branch is unreachable. -/
theorem claim_C9 (profile : Profile) (t0 : Int) (es : List Event) (t : Int) (b : Bool) :
    (run profile (initConfig t0) es).dev.manual_override = false ∧
    (step profile (run profile (initConfig t0) es) (Event.manualValve t b)).dev =
      (run profile (initConfig t0) es).dev := by
  constructor
  · rw [(run_frozen profile es (initConfig t0) rfl).1]
    rfl
  · rfl

/-- Claim C10 counterexample: under the zero-cap profile, on an input where
the wait-time and cycle conditions hold and the guard expression is indeed
off, can_water_device still does not return true — it returns no verdict,
raising at line 241 before the volume guard at lines 256-262 is reached. -/
theorem claim_C10_cex :
    can_water_device cap0Profile (initState 0) 0 = Except.error () ∧
    capBlocked cap0Profile (water_used_today cap0Profile 0) = false :=
  ⟨can_water_error cap0Profile (initState 0) 0, by decide⟩

/-- Claim C10 (amended): with max_watering_per_day equal to 0 (Python-falsy)
the volume-guard expression of lines 256-262 is indeed skipped — the guard
evaluates to false for every usage value of the zero-cap profile — but the
guard is dead code: every can_water_device call raises at line 241 before
reaching it, so can_water never returns true (or any verdict), for a zero
cap or otherwise. -/
theorem claim_C10 (profile : Profile) (s : DeviceState) (now : Int)
    (hcap : profile.max_watering_per_day = some 0) :
    capBlocked profile (water_used_today profile s.daily_cycles) = false ∧
    can_water_device profile s now = Except.error () := by
  refine ⟨?_, can_water_error profile s now⟩
  unfold capBlocked
  rw [hcap]
  simp

/-- Claim C10 witness: the guard skip and the error instantiated on the
zero-cap profile at a state with three counted cycles. -/
theorem claim_C10_witness :
    capBlocked cap0Profile (water_used_today cap0Profile staleState.daily_cycles) = false ∧
    can_water_device cap0Profile staleState 0 = Except.error () :=
  claim_C10 cap0Profile staleState 0 rfl

end Irrigator
